import Mathlib

/-!
# Formal model of the Popcorn GPS collar gateway

The repository holds two snapshots of the gateway server:

* `src/unnamed/part_001` — "V6.0" (nested payload shape, JSON-based signature,
  anomaly deduplication, walk-end that finalizes an existing session);
* `src/unnamed/part_000` — "V6.1" (flat payload shape, field-concatenation
  signature with hex output, no anomaly deduplication, walk-end that always
  inserts a fresh session).

JavaScript numbers are modelled as `ℚ` (all arithmetic the gateway performs on
them — integer-scaled sums, comparisons, exact divisions — is exact in ℚ and in
IEEE doubles alike for the ranges involved), strings as `String`, absent JSON
fields as `none`.  JS truthiness of an optional number (`x || d`) is: absent or
zero → default.  The external store is a record of lists of rows; a store write
that the source lets fail silently is driven by an explicit fault flag.
-/

/-- JS `x || d` on an optional number: `undefined`/`0` are falsy. -/
def jsOrQ (x : Option ℚ) (d : ℚ) : ℚ :=
  match x with
  | none => d
  | some q => if q = 0 then d else q

/-- JS `x || null` on an optional number (e.g. `payload.gps?.lat || null`). -/
def jsOrNull (x : Option ℚ) : Option ℚ :=
  match x with
  | none => none
  | some q => if q = 0 then none else some q

/-- JS truthiness of an optional number. -/
def optQTruthy (x : Option ℚ) : Bool :=
  match x with
  | none => false
  | some q => q != 0

/-- JS truthiness of an optional string: absent or empty → falsy. -/
def optStrTruthy (x : Option String) : Bool :=
  match x with
  | none => false
  | some s => s ≠ ""

/-- JS `x || d` on an optional string. -/
def jsOrStr (x : Option String) (d : String) : String :=
  match x with
  | none => d
  | some s => if s = "" then d else s

/-- JS truthiness of an optional natural number (the V6.0 firmware sends the
signature as an integer; `0` is falsy). -/
def optNatTruthy (x : Option Nat) : Bool :=
  match x with
  | none => false
  | some n => n != 0

/-- SQL `=` against a possibly-NULL column: NULL equals nothing (used for the
`.eq('anomaly_type', …)` filter of the anomaly dedup query). -/
def optEqSql (a b : Option String) : Bool :=
  match a, b with
  | some x, some y => x == y
  | _, _ => false

/-- UTF-16 code units of a string; the gateway only ever hashes ASCII
(`charCodeAt` agrees with `Char.toNat` there). -/
def strBytes (s : String) : List Nat :=
  s.data.map Char.toNat

/-! ## SignatureVerifier: the djb2 keyed checksum (claim C9)

`part_001` (V6.0) runs two loops — message first, then key — with
`hash = ((hash << 5) + hash) + c; hash = hash >>> 0` in each iteration.
`part_000` (V6.1) runs one loop over `message + key` with
`hash = ((hash << 5) + hash) + c; hash = hash & 0xFFFFFFFF` and a final
`hash >>> 0`.  In JavaScript `<<` reduces to a *signed* 32-bit integer,
`& 0xFFFFFFFF` also yields a signed 32-bit value, and `>>> 0` yields the
canonical unsigned residue mod 2³²; the intermediate additions are exact
(magnitudes stay far below 2⁵³).  We model the signed reduction by `toInt32`
and the unsigned one by `toUint32`, both on `Int`. -/

/-- JS `>>> 0`: canonical residue in `[0, 2³²)`. -/
def toUint32 (x : Int) : Int := x % 4294967296

/-- JS 32-bit signed reduction (`<<`, `& 0xFFFFFFFF`): residue in `[-2³¹, 2³¹)`. -/
def toInt32 (x : Int) : Int := (x + 2147483648) % 4294967296 - 2147483648

/-- One V6.0 loop iteration: `hash = ((hash << 5) + hash) + c; hash = hash >>> 0`. -/
def djb2StepV60 (h : Int) (c : Nat) : Int :=
  toUint32 (toInt32 (h * 32) + h + (c : Int))

/-- One V6.1 loop iteration: `hash = ((hash << 5) + hash) + c; hash = hash & 0xFFFFFFFF`. -/
def djb2StepV61 (h : Int) (c : Nat) : Int :=
  toInt32 (toInt32 (h * 32) + h + (c : Int))

/-- V6.0 `verifyHMAC` checksum: message loop, then key loop, then `>>> 0`. -/
def checksumV60 (msg key : List Nat) : Int :=
  toUint32 (key.foldl djb2StepV60 (msg.foldl djb2StepV60 5381))

/-- V6.1 `verifyHMAC` checksum: one loop over `message + hmacKey`, final `>>> 0`. -/
def checksumV61 (msg key : List Nat) : Int :=
  toUint32 ((msg ++ key).foldl djb2StepV61 5381)

/-- Modelled from the spec's recurrence (claim C9):
`hash₀ = 5381; hashᵢ = ((hashᵢ₋₁ << 5) + hashᵢ₋₁ + byteᵢ) mod 2³²`,
with `<<` the width-unbounded shift (`h << 5 = 32·h`). -/
def djb2Spec (bytes : List Nat) : Nat :=
  bytes.foldl (fun h c => (h * 32 + h + c) % 4294967296) 5381

theorem toUint32_emod (x : Int) : toUint32 x % 4294967296 = x % 4294967296 := by
  unfold toUint32; omega

theorem toInt32_emod (x : Int) : toInt32 x % 4294967296 = x % 4294967296 := by
  unfold toInt32; omega

theorem djb2StepV60_congr (h : Int) (n c : Nat)
    (hh : h % 4294967296 = (n : Int) % 4294967296) :
    djb2StepV60 h c % 4294967296 = ((n * 32 + n + c) % 4294967296 : Nat) := by
  unfold djb2StepV60 toUint32 toInt32
  have hc : ((n * 32 + n + c) % 4294967296 : Nat) = ((n : Int) * 32 + n + c) % 4294967296 := by
    push_cast
    omega
  rw [hc]
  omega

theorem djb2StepV61_congr (h : Int) (n c : Nat)
    (hh : h % 4294967296 = (n : Int) % 4294967296) :
    djb2StepV61 h c % 4294967296 = ((n * 32 + n + c) % 4294967296 : Nat) := by
  unfold djb2StepV61 toInt32
  have hc : ((n * 32 + n + c) % 4294967296 : Nat) = ((n : Int) * 32 + n + c) % 4294967296 := by
    push_cast
    omega
  rw [hc]
  omega

theorem foldl_djb2StepV60_congr (cs : List Nat) :
    ∀ (h : Int) (n : Nat), h % 4294967296 = (n : Int) % 4294967296 →
      (cs.foldl djb2StepV60 h) % 4294967296
        = ((cs.foldl (fun h c => (h * 32 + h + c) % 4294967296) n : Nat) : Int) % 4294967296 := by
  induction cs with
  | nil => intro h n hh; simpa using hh
  | cons c cs ih =>
    intro h n hh
    simp only [List.foldl_cons]
    apply ih
    have h1 := djb2StepV60_congr h n c hh
    rw [h1]
    have h2 : ((n * 32 + n + c) % 4294967296 : Nat) < 4294967296 :=
      Nat.mod_lt _ (by norm_num)
    omega

theorem foldl_djb2StepV61_congr (cs : List Nat) :
    ∀ (h : Int) (n : Nat), h % 4294967296 = (n : Int) % 4294967296 →
      (cs.foldl djb2StepV61 h) % 4294967296
        = ((cs.foldl (fun h c => (h * 32 + h + c) % 4294967296) n : Nat) : Int) % 4294967296 := by
  induction cs with
  | nil => intro h n hh; simpa using hh
  | cons c cs ih =>
    intro h n hh
    simp only [List.foldl_cons]
    apply ih
    have h1 := djb2StepV61_congr h n c hh
    rw [h1]
    have h2 : ((n * 32 + n + c) % 4294967296 : Nat) < 4294967296 :=
      Nat.mod_lt _ (by norm_num)
    omega

theorem djb2Spec_aux_lt (cs : List Nat) :
    ∀ n : Nat, n < 4294967296 →
      cs.foldl (fun h c => (h * 32 + h + c) % 4294967296) n < 4294967296 := by
  induction cs with
  | nil => intro n hn; simpa using hn
  | cons c cs ih =>
    intro n _
    simp only [List.foldl_cons]
    exact ih _ (Nat.mod_lt _ (by norm_num))

theorem checksumV60_eq_djb2Spec (msg key : List Nat) :
    checksumV60 msg key = (djb2Spec (msg ++ key) : Int) := by
  unfold checksumV60 djb2Spec
  rw [List.foldl_append]
  have h5381 : (5381 : Int) % 4294967296 = ((5381 : Nat) : Int) % 4294967296 := by norm_num
  have hmsg := foldl_djb2StepV60_congr msg 5381 5381 h5381
  have hkey := foldl_djb2StepV60_congr key _ _ hmsg
  have hlt : (msg ++ key).foldl (fun h c => (h * 32 + h + c) % 4294967296) 5381 < 4294967296 := by
    exact djb2Spec_aux_lt _ _ (by norm_num)
  rw [List.foldl_append] at hlt
  unfold toUint32
  omega

theorem checksumV61_eq_djb2Spec (msg key : List Nat) :
    checksumV61 msg key = (djb2Spec (msg ++ key) : Int) := by
  unfold checksumV61 djb2Spec
  have h5381 : (5381 : Int) % 4294967296 = ((5381 : Nat) : Int) % 4294967296 := by norm_num
  have hfold := foldl_djb2StepV61_congr (msg ++ key) 5381 5381 h5381
  have hlt : (msg ++ key).foldl (fun h c => (h * 32 + h + c) % 4294967296) 5381 < 4294967296 := by
    exact djb2Spec_aux_lt _ _ (by norm_num)
  unfold toUint32
  omega

/-! Hex encoding used by the V6.1 verifier:
`(hash >>> 0).toString(16).padStart(8, '0')`. -/

/-- Lowercase hex digits of `n` (JS `toString(16)`), via `Nat.toDigits`. -/
def natToHex (n : Nat) : String :=
  String.mk (Nat.toDigits 16 n)

/-- JS `.padStart(8, '0')`. -/
def padStart8 (s : String) : String :=
  String.mk (List.replicate (8 - s.length) '0') ++ s

/-! ## AntiCheatGrader: scores, grades, percentages (claims C5, C6, C7) -/

/-- V6.0 walk-end penalty score (`part_001` lines 573–577):
`gradeScore = 100; -5 per stop; -20 if duration < 900; -15 if distance < 500;
Math.max(0, Math.min(100, gradeScore))`. -/
def gradeScoreCalc (duration distance stops : ℚ) : ℚ :=
  let g : ℚ := 100
  let g := g - stops * 5
  let g := if duration < 900 then g - 20 else g
  let g := if distance < 500 then g - 15 else g
  max 0 (min 100 g)

/-- Modelled from the claim's formula (C5):
`clamp(100 − 5×stopCount − 20·[duration<900s] − 15·[distance<500m], 0, 100)`. -/
def scoreSpec (duration distance stops : ℚ) : ℚ :=
  max 0 (min 100
    (100 - 5 * stops
       - (if duration < 900 then 20 else 0)
       - (if distance < 500 then 15 else 0)))

/-- V6.1 grade letter (`part_000` lines 180–184): score-supplied policy,
`if (score >= 90) 'A' else if (score >= 70) 'B' else if (score >= 50) 'C' else 'F'`. -/
def gradeFromScore (score : ℚ) : String :=
  if score ≥ 90 then "A"
  else if score ≥ 70 then "B"
  else if score ≥ 50 then "C"
  else "F"

/-- V6.0 grade letter (`part_001` lines 579–582): sequential re-assignment,
`let grade='A'; if (<90) 'B'; if (<70) 'C'; if (<50) 'F'`. -/
def gradeChain (score : ℚ) : String :=
  let g := "A"
  let g := if score < 90 then "B" else g
  let g := if score < 70 then "C" else g
  let g := if score < 50 then "F" else g
  g

/-- V6.1 walk-end total seconds (`part_000` line 187):
`walkData.duration_seconds || 1` — JS falsy default, not `max(1, ·)`. -/
def totalSecondsCalc (duration_seconds : Option ℚ) : ℚ :=
  jsOrQ duration_seconds 1

/-- V6.1 percentage (`part_000` lines 188–189):
`((walkData.X_seconds || 0) / totalSeconds) * 100`. -/
def percentCalc (x : Option ℚ) (totalSeconds : ℚ) : ℚ :=
  jsOrQ x 0 / totalSeconds * 100

/-- JS truthiness of an optional boolean (`payload.gps?.valid`). -/
def optBoolTruthy (x : Option Bool) : Bool := x.getD false

/-! ## V6.0 gateway (`src/unnamed/part_001`)

Nested payload shape.  The payload additionally carries `jsonBytes`, the
UTF-16 code units of `JSON.stringify` of the payload with the `signature`
field deleted — the canonical byte representation hashed by `verifyHMAC`
(JSON serialization itself is outside the shallow embedding, so the bytes
travel with the payload).  Status columns that no route ever reads back
(accelerometer, battery, network, sleep, …) are pass-through data and are
elided from the row models; every column consulted by a handler is kept. -/

structure GpsV60 where
  valid : Bool := false
  lat : Option ℚ := none
  lon : Option ℚ := none
  alt : Option ℚ := none
  speed : Option ℚ := none
  hdop : Option ℚ := none
  satellites : Option ℚ := none
  deriving DecidableEq

structure ActivityV60 where
  cls : Option ℚ := none
  deriving DecidableEq

structure LocCtxV60 where
  is_home : Option Bool := none
  is_escaped : Option Bool := none
  deriving DecidableEq

structure ScratchV60 where
  detected : Bool := false
  frequency : Option ℚ := none
  confidence : Option ℚ := none
  today_count : Option ℚ := none
  deriving DecidableEq

structure HealthV60 where
  anomaly : Bool := false
  anomaly_type : Option String := none
  deviation : Option ℚ := none
  deriving DecidableEq

structure WalkCountersV60 where
  active : Bool := false
  duration : Option ℚ := none
  distance : Option ℚ := none
  stops : Option ℚ := none
  deriving DecidableEq

structure PayloadV60 where
  device_id : Option String := none
  signature : Option Nat := none
  jsonBytes : List Nat := []
  gps : Option GpsV60 := none
  activity : Option ActivityV60 := none
  location : Option LocCtxV60 := none
  scratch : Option ScratchV60 := none
  health : Option HealthV60 := none
  walk : Option WalkCountersV60 := none
  boot_count : Option ℚ := none
  deriving DecidableEq

/-- V6.0 `verifyHMAC` (`part_001` lines 57–97): no key → accept; no (or falsy)
signature → reject; otherwise compare the djb2 checksum of the canonical JSON
bytes followed by the key bytes with the integer signature the firmware sent. -/
def verifyHMACV60 (hmacKey : Option String) (p : PayloadV60) : Bool :=
  if ¬ optStrTruthy hmacKey then true
  else if ¬ optNatTruthy p.signature then false
  else checksumV60 p.jsonBytes (strBytes (hmacKey.getD "")) == ((p.signature.getD 0 : Nat) : Int)

structure StatusRowV60 where
  device_id : String
  latitude : Option ℚ := none
  longitude : Option ℚ := none
  walk_duration : ℚ := 0
  walk_distance : ℚ := 0
  walk_stops : ℚ := 0
  last_seen_at : Nat := 0
  deriving DecidableEq

structure LocationRowV60 where
  device_id : String
  latitude : Option ℚ := none
  longitude : Option ℚ := none
  altitude : Option ℚ := none
  speed : Option ℚ := none
  hdop : Option ℚ := none
  satellites : Option ℚ := none
  activity_class : Option ℚ := none
  is_home : Option Bool := none
  is_escaped : Option Bool := none
  deriving DecidableEq

structure ScratchEventRowV60 where
  device_id : String
  frequency_hz : Option ℚ := none
  confidence : Option ℚ := none
  latitude : Option ℚ := none
  longitude : Option ℚ := none
  deriving DecidableEq

structure ScratchDailyRowV60 where
  device_id : String
  day : Nat
  total_count : Option ℚ := none
  max_frequency : Option ℚ := none
  deriving DecidableEq

structure AnomalyRowV60 where
  device_id : String
  anomaly_type : Option String := none
  deviation_percent : Option ℚ := none
  day : Nat := 0
  deriving DecidableEq

structure WalkRowV60 where
  id : Nat
  device_id : String
  started_at : Nat := 0
  ended_at : Option Nat := none
  start_lat : Option ℚ := none
  start_lon : Option ℚ := none
  end_lat : Option ℚ := none
  end_lon : Option ℚ := none
  duration_seconds : Option ℚ := none
  distance_meters : Option ℚ := none
  stop_count : Option ℚ := none
  grade : Option String := none
  grade_score : Option ℚ := none
  deriving DecidableEq

structure StoreV60 where
  device_status : List StatusRowV60 := []
  locations : List LocationRowV60 := []
  scratch_events : List ScratchEventRowV60 := []
  scratch_daily : List ScratchDailyRowV60 := []
  anomaly_log : List AnomalyRowV60 := []
  walk_sessions : List WalkRowV60 := []
  deriving DecidableEq

/-- Fault injection for the store writes the source lets fail silently
(an error value that is only logged).  A raised flag makes that single
write return an error, i.e. leave the table unchanged. -/
structure FaultsV60 where
  statusFail : Bool := false
  locationFail : Bool := false
  scratchFail : Bool := false
  scratchDailyFail : Bool := false
  anomalyQueryFail : Bool := false
  anomalyInsertFail : Bool := false
  deriving DecidableEq

def noFaults : FaultsV60 := {}

/-- Store `upsert(…, { onConflict: 'device_id' })`. -/
def upsertStatusV60 (row : StatusRowV60) (l : List StatusRowV60) : List StatusRowV60 :=
  if l.any (fun r => r.device_id == row.device_id) then
    l.map (fun r => if r.device_id == row.device_id then row else r)
  else l ++ [row]

/-- Store `upsert(…, { onConflict: 'device_id,date' })`. -/
def upsertScratchDailyV60 (row : ScratchDailyRowV60) (l : List ScratchDailyRowV60) :
    List ScratchDailyRowV60 :=
  if l.any (fun r => r.device_id == row.device_id && r.day == row.day) then
    l.map (fun r => if r.device_id == row.device_id && r.day == row.day then row else r)
  else l ++ [row]

/-- The `statusUpdate` object of `part_001` lines 155–219 (kept columns). -/
def statusRowV60 (now : Nat) (p : PayloadV60) : StatusRowV60 :=
  { device_id := p.device_id.getD ""
    latitude := jsOrNull (p.gps.bind (·.lat))
    longitude := jsOrNull (p.gps.bind (·.lon))
    walk_duration := jsOrQ (p.walk.bind (·.duration)) 0
    walk_distance := jsOrQ (p.walk.bind (·.distance)) 0
    walk_stops := jsOrQ (p.walk.bind (·.stops)) 0
    last_seen_at := now }

/-- Condition `payload.gps?.valid && payload.gps?.lat && payload.gps?.lon`
(`part_001` line 231) — JS truthiness, so a zero coordinate is falsy. -/
def locCondV60 (p : PayloadV60) : Bool :=
  optBoolTruthy (p.gps.map (·.valid))
    && optQTruthy (p.gps.bind (·.lat)) && optQTruthy (p.gps.bind (·.lon))

/-- The location record inserted at `part_001` lines 234–245. -/
def locationRowV60 (d : String) (p : PayloadV60) : LocationRowV60 :=
  { device_id := d
    latitude := p.gps.bind (·.lat)
    longitude := p.gps.bind (·.lon)
    altitude := p.gps.bind (·.alt)
    speed := p.gps.bind (·.speed)
    hdop := p.gps.bind (·.hdop)
    satellites := p.gps.bind (·.satellites)
    activity_class := p.activity.bind (·.cls)
    is_home := p.location.bind (·.is_home)
    is_escaped := p.location.bind (·.is_escaped) }

def scratchEventRowV60 (d : String) (p : PayloadV60) : ScratchEventRowV60 :=
  { device_id := d
    frequency_hz := p.scratch.bind (·.frequency)
    confidence := p.scratch.bind (·.confidence)
    latitude := p.gps.bind (·.lat)
    longitude := p.gps.bind (·.lon) }

def scratchDailyRowV60 (d : String) (now : Nat) (p : PayloadV60) : ScratchDailyRowV60 :=
  { device_id := d
    day := now
    total_count := p.scratch.bind (·.today_count)
    max_frequency := p.scratch.bind (·.frequency) }

/-- The anomaly-dedup query predicate (`part_001` lines 284–290): same device,
same anomaly type (SQL `=`, NULL matches nothing), `detected_at >= today`
(timestamps are modelled at calendar-day granularity). -/
def anomalyMatchV60 (d : String) (ty : Option String) (today : Nat) (r : AnomalyRowV60) : Bool :=
  r.device_id == d && optEqSql r.anomaly_type ty && decide (today ≤ r.day)

/-- The anomaly block of `part_001` lines 281–301: if the report flags an
anomaly, query today's entries for the same device and type (`limit(1)`); a
failed query destructures to `undefined`, which reads as "no match"; insert
only when no match was found. -/
def anomalySectionV60 (f : FaultsV60) (now : Nat) (d : String) (p : PayloadV60)
    (log : List AnomalyRowV60) : List AnomalyRowV60 :=
  match p.health with
  | none => log
  | some hl =>
    if hl.anomaly then
      let existing : List AnomalyRowV60 :=
        if f.anomalyQueryFail then []
        else (log.filter (anomalyMatchV60 d hl.anomaly_type now)).take 1
      if existing.isEmpty then
        if f.anomalyInsertFail then log
        else log ++ [{ device_id := d
                       anomaly_type := hl.anomaly_type
                       deviation_percent := hl.deviation
                       day := now }]
      else log
    else log

/-- The V6.0 `POST /telemetry` handler (`part_001` lines 136–313): validate
`device_id`, verify the signature, then sequentially upsert the device status,
conditionally insert a location, a scratch event plus daily aggregate, and a
deduplicated anomaly entry; every write failure is logged only, and the
response is `200 {status: ok}` whenever validation and the signature passed. -/
def telemetryV60 (hmacKey : Option String) (f : FaultsV60) (now : Nat)
    (p : PayloadV60) (s : StoreV60) : Nat × StoreV60 :=
  if ¬ optStrTruthy p.device_id then (400, s)
  else if ¬ verifyHMACV60 hmacKey p then (401, s)
  else
    let d := p.device_id.getD ""
    let s := if f.statusFail then s
             else { s with device_status := upsertStatusV60 (statusRowV60 now p) s.device_status }
    let s := if locCondV60 p && !f.locationFail then
               { s with locations := s.locations ++ [locationRowV60 d p] }
             else s
    let s := if optBoolTruthy (p.scratch.map (·.detected)) then
               let s := if f.scratchFail then s
                        else { s with scratch_events := s.scratch_events ++ [scratchEventRowV60 d p] }
               if f.scratchDailyFail then s
               else { s with scratch_daily := upsertScratchDailyV60 (scratchDailyRowV60 d now p) s.scratch_daily }
             else s
    let s := { s with anomaly_log := anomalySectionV60 f now d p s.anomaly_log }
    (200, s)

structure WalkEndRespV60 where
  code : Nat
  grade : Option String := none
  grade_score : Option ℚ := none
  deriving DecidableEq

/-- Counter `status?.walk_duration || 0` (`part_001` line 569); a found row's counter
is a plain number, on which `|| 0` is the identity (zero maps to zero). -/
def statusDuration (status : Option StatusRowV60) : ℚ :=
  match status with | some r => r.walk_duration | none => 0

/-- Counter `status?.walk_distance || 0` (`part_001` line 570). -/
def statusDistance (status : Option StatusRowV60) : ℚ :=
  match status with | some r => r.walk_distance | none => 0

/-- Counter `status?.walk_stops || 0` (`part_001` line 571). -/
def statusStops (status : Option StatusRowV60) : ℚ :=
  match status with | some r => r.walk_stops | none => 0

/-- The `update(…)` payload applied to rows with `id = walk_id`
(`part_001` lines 585–597). -/
def finalizeWalkRowV60 (status : Option StatusRowV60) (now : Nat) (walk_id : Nat)
    (r : WalkRowV60) : WalkRowV60 :=
  if r.id == walk_id then
    { r with ended_at := some now
             duration_seconds := some (statusDuration status)
             distance_meters := some (statusDistance status)
             end_lat := status.bind (·.latitude)
             end_lon := status.bind (·.longitude)
             stop_count := some (statusStops status)
             grade := some (gradeChain (gradeScoreCalc (statusDuration status)
                              (statusDistance status) (statusStops status)))
             grade_score := some (gradeScoreCalc (statusDuration status)
                              (statusDistance status) (statusStops status)) }
  else r

/-- The V6.0 `POST /device/:deviceId/walk/end` handler (`part_001` lines
545–616): read the device status and the named walk session; 404 when the
session does not exist; otherwise compute the penalty score and grade from the
status counters and update the session row keyed by `id`, unconditionally —
there is no guard on `ended_at`. -/
def walkEndV60 (deviceId : String) (walk_id : Nat) (now : Nat) (s : StoreV60) :
    WalkEndRespV60 × StoreV60 :=
  let status := s.device_status.find? (fun r => r.device_id == deviceId)
  let walk := s.walk_sessions.find? (fun r => r.id == walk_id)
  match walk with
  | none => ({ code := 404 }, s)
  | some _ =>
    let gradeScore := gradeScoreCalc (statusDuration status) (statusDistance status)
                        (statusStops status)
    let grade := gradeChain gradeScore
    ({ code := 200, grade := some grade, grade_score := some gradeScore },
     { s with walk_sessions := s.walk_sessions.map (finalizeWalkRowV60 status now walk_id) })

/-! Projection lemmas for the accepted-telemetry path of the V6.0 handler. -/

theorem telemetryV60_accepted_fst (hmacKey : Option String) (f : FaultsV60) (now : Nat)
    (p : PayloadV60) (s : StoreV60)
    (hd : optStrTruthy p.device_id = true)
    (hv : verifyHMACV60 hmacKey p = true) :
    (telemetryV60 hmacKey f now p s).1 = 200 := by
  unfold telemetryV60
  rw [if_neg (by simp [hd]), if_neg (by simp [hv])]

theorem telemetryV60_anomaly_log (hmacKey : Option String) (f : FaultsV60) (now : Nat)
    (p : PayloadV60) (s : StoreV60)
    (hd : optStrTruthy p.device_id = true)
    (hv : verifyHMACV60 hmacKey p = true) :
    (telemetryV60 hmacKey f now p s).2.anomaly_log
      = anomalySectionV60 f now (p.device_id.getD "") p s.anomaly_log := by
  unfold telemetryV60
  rw [if_neg (by simp [hd]), if_neg (by simp [hv])]
  split_ifs <;> rfl

theorem telemetryV60_device_status (hmacKey : Option String) (f : FaultsV60) (now : Nat)
    (p : PayloadV60) (s : StoreV60)
    (hd : optStrTruthy p.device_id = true)
    (hv : verifyHMACV60 hmacKey p = true) :
    (telemetryV60 hmacKey f now p s).2.device_status
      = if f.statusFail then s.device_status
        else upsertStatusV60 (statusRowV60 now p) s.device_status := by
  unfold telemetryV60
  rw [if_neg (by simp [hd]), if_neg (by simp [hv])]
  split_ifs <;> rfl

theorem telemetryV60_locations (hmacKey : Option String) (f : FaultsV60) (now : Nat)
    (p : PayloadV60) (s : StoreV60)
    (hd : optStrTruthy p.device_id = true)
    (hv : verifyHMACV60 hmacKey p = true) :
    (telemetryV60 hmacKey f now p s).2.locations
      = if locCondV60 p && !f.locationFail then
          s.locations ++ [locationRowV60 (p.device_id.getD "") p]
        else s.locations := by
  unfold telemetryV60
  rw [if_neg (by simp [hd]), if_neg (by simp [hv])]
  split_ifs <;> rfl

/-! ## V6.1 gateway (`src/unnamed/part_000`)

Flat payload shape.  `HMAC_KEY` is `process.env.HMAC_KEY || ''`, so the key is
a plain string with `""` meaning "verification disabled".  The signature
message is the template string `` `${device_id}:${timestamp}:${boot_count}` ``;
the fields are carried in their interpolated string form (an absent field
interpolates as `"undefined"`).  As in the V6.0 model, pure pass-through
status columns that no handler reads back are elided from the row models. -/

/-- JS template-string interpolation of a possibly-absent value. -/
def jsStr (x : Option String) : String := x.getD "undefined"

structure PayloadV61 where
  device_id : Option String := none
  signature : Option String := none
  timestamp : Option String := none
  boot_count : Option String := none
  latitude : Option ℚ := none
  longitude : Option ℚ := none
  altitude : Option ℚ := none
  speed : Option ℚ := none
  hdop : Option ℚ := none
  satellites : Option ℚ := none
  gps_valid : Bool := false
  activity_class : Option ℚ := none
  is_home : Option Bool := none
  is_escaped : Option Bool := none
  scratch_detected : Bool := false
  scratch_intensity : Option ℚ := none
  scratch_duration : Option ℚ := none
  anomaly_detected : Bool := false
  anomaly_type : Option String := none
  anomaly_severity : Option String := none
  activity_deviation : Option ℚ := none
  deriving DecidableEq

/-- Message `` `${data.device_id}:${data.timestamp}:${data.boot_count}` `` (`part_000` line 25). -/
def messageV61 (p : PayloadV61) : String :=
  jsStr p.device_id ++ ":" ++ jsStr p.timestamp ++ ":" ++ jsStr p.boot_count

/-- V6.1 `verifyHMAC` (`part_000` lines 22–34): no key → accept; otherwise hash
`message + hmacKey`, hex-encode the unsigned result padded to 8 digits, and
compare with the provided signature string. -/
def verifyHMACV61 (hmacKey : String) (p : PayloadV61) (providedSignature : Option String) : Bool :=
  if hmacKey = "" then true
  else
    let expected :=
      padStart8 (natToHex (checksumV61 (strBytes (messageV61 p)) (strBytes hmacKey)).toNat)
    match providedSignature with
    | some sig => expected == sig
    | none => false

structure StatusRowV61 where
  device_id : String
  latitude : Option ℚ := none
  longitude : Option ℚ := none
  last_seen_at : Nat := 0
  deriving DecidableEq

structure LocationRowV61 where
  device_id : String
  latitude : Option ℚ := none
  longitude : Option ℚ := none
  altitude : Option ℚ := none
  speed : Option ℚ := none
  hdop : Option ℚ := none
  satellites : Option ℚ := none
  activity_class : Option ℚ := none
  is_home : Option Bool := none
  is_escaped : Option Bool := none
  deriving DecidableEq

structure ScratchEventRowV61 where
  device_id : String
  intensity : ℚ := 1
  duration_ms : ℚ := 500
  deriving DecidableEq

structure AnomalyRowV61 where
  device_id : String
  anomaly_type : Option String := none
  severity : String := "medium"
  deviation : Option ℚ := none
  deriving DecidableEq

structure WalkRowV61 where
  device_id : String
  ended_at : Nat := 0
  duration_seconds : Option ℚ := none
  distance_meters : Option ℚ := none
  stop_count : Option ℚ := none
  grade : String := "F"
  grade_score : ℚ := 0
  verification_status : String := "pending"
  quality_score : ℚ := 0
  carried_seconds : ℚ := 0
  carried_percent : ℚ := 0
  vehicle_seconds : ℚ := 0
  vehicle_detected : Bool := false
  actual_walk_seconds : ℚ := 0
  actual_walk_percent : ℚ := 0
  cheat_flags : Nat := 0
  cheat_summary : Option String := none
  deriving DecidableEq

structure StoreV61 where
  device_status : List StatusRowV61 := []
  locations : List LocationRowV61 := []
  scratch_events : List ScratchEventRowV61 := []
  anomaly_log : List AnomalyRowV61 := []
  walk_sessions : List WalkRowV61 := []
  deriving DecidableEq

def upsertStatusV61 (row : StatusRowV61) (l : List StatusRowV61) : List StatusRowV61 :=
  if l.any (fun r => r.device_id == row.device_id) then
    l.map (fun r => if r.device_id == row.device_id then row else r)
  else l ++ [row]

/-- The status columns kept from the V6.1 upsert (`part_000` lines 70–120):
values are passed through raw, with no nesting defaults. -/
def statusRowV61 (now : Nat) (d : String) (p : PayloadV61) : StatusRowV61 :=
  { device_id := d
    latitude := p.latitude
    longitude := p.longitude
    last_seen_at := now }

/-- Condition `data.gps_valid && data.latitude && data.longitude` (`part_000` line 127). -/
def locCondV61 (p : PayloadV61) : Bool :=
  p.gps_valid && optQTruthy p.latitude && optQTruthy p.longitude

def locationRowV61 (d : String) (p : PayloadV61) : LocationRowV61 :=
  { device_id := d
    latitude := p.latitude
    longitude := p.longitude
    altitude := p.altitude
    speed := p.speed
    hdop := p.hdop
    satellites := p.satellites
    activity_class := p.activity_class
    is_home := p.is_home
    is_escaped := p.is_escaped }

def scratchEventRowV61 (d : String) (p : PayloadV61) : ScratchEventRowV61 :=
  { device_id := d
    intensity := jsOrQ p.scratch_intensity 1
    duration_ms := jsOrQ p.scratch_duration 500 }

def anomalyRowV61 (d : String) (p : PayloadV61) : AnomalyRowV61 :=
  { device_id := d
    anomaly_type := p.anomaly_type
    severity := jsOrStr p.anomaly_severity "medium"
    deviation := p.activity_deviation }

/-- The write sequence of the V6.1 telemetry handler (`part_000` lines 69–159):
status upsert, conditional location insert, conditional scratch-event insert,
and an *unconditional* anomaly insert whenever `anomaly_detected` and a truthy
`anomaly_type` are present — there is no dedup query in this variant. -/
def telemetryV61Writes (now : Nat) (d : String) (p : PayloadV61) (s : StoreV61) : StoreV61 :=
  let s := { s with device_status := upsertStatusV61 (statusRowV61 now d p) s.device_status }
  let s := if locCondV61 p then { s with locations := s.locations ++ [locationRowV61 d p] }
           else s
  let s := if p.scratch_detected then
             { s with scratch_events := s.scratch_events ++ [scratchEventRowV61 d p] }
           else s
  let s := if p.anomaly_detected && optStrTruthy p.anomaly_type then
             { s with anomaly_log := s.anomaly_log ++ [anomalyRowV61 d p] }
           else s
  s

/-- The V6.1 `POST /telemetry` handler (`part_000` lines 49–167).  Note the
signature guard: `if (hmacKey && data.signature) { if (!verifyHMAC(…)) 401 }` —
verification runs *only when a signature field is present and truthy*. -/
def telemetryV61 (hmacKey : String) (storeConfigured : Bool) (now : Nat)
    (p : PayloadV61) (s : StoreV61) : Nat × StoreV61 :=
  if ¬ optStrTruthy p.device_id then (400, s)
  else if (hmacKey ≠ "" ∧ optStrTruthy p.signature = true)
            ∧ verifyHMACV61 hmacKey p p.signature = false then (401, s)
  else if ¬ storeConfigured then (500, s)
  else (200, telemetryV61Writes now (p.device_id.getD "") p s)

structure WalkEndBodyV61 where
  started_at : Option String := none
  duration_seconds : Option ℚ := none
  distance_meters : Option ℚ := none
  stop_count : Option ℚ := none
  quality_score : Option ℚ := none
  verification_status : Option String := none
  carried_seconds : Option ℚ := none
  vehicle_seconds : Option ℚ := none
  actual_walk_seconds : Option ℚ := none
  cheat_flags : Option Nat := none
  deriving DecidableEq

/-- Cheat-bitmask labels (`part_000` lines 192–197):
bit 0 carrying, bit 1 vehicle, bit 2 excessive stops, bit 3 leash-only. -/
def cheatSummaryV61 (flags : Nat) : List String :=
  (if flags &&& 1 ≠ 0 then ["carrying_detected"] else [])
    ++ (if flags &&& 2 ≠ 0 then ["vehicle_detected"] else [])
    ++ (if flags &&& 4 ≠ 0 then ["excessive_stops"] else [])
    ++ (if flags &&& 8 ≠ 0 then ["leash_only"] else [])

structure WalkEndRespV61 where
  code : Nat
  grade : Option String := none
  deriving DecidableEq

/-- The V6.1 `POST /device/:deviceId/walk/end` handler (`part_000` lines
170–236).  It never consults any walk id: it always *inserts* a brand-new
`walk_sessions` row built from the request body.  The one failure mode kept
is the implicit crash: with neither a truthy `started_at` nor a
`duration_seconds`, `new Date(NaN).toISOString()` throws and the catch-all
answers 500.  The synthesized fallback start timestamp (a pure function of the
clock and the duration) is a pass-through column and is elided from the row. -/
def walkEndV61 (deviceId : String) (now : Nat) (b : WalkEndBodyV61) (s : StoreV61) :
    WalkEndRespV61 × StoreV61 :=
  if ¬ optStrTruthy b.started_at ∧ b.duration_seconds = none then ({ code := 500 }, s)
  else
    let score := jsOrQ b.quality_score 0
    let grade := gradeFromScore score
    let totalSeconds := totalSecondsCalc b.duration_seconds
    let carriedPercent := percentCalc b.carried_seconds totalSeconds
    let actualWalkPercent := percentCalc b.actual_walk_seconds totalSeconds
    let flags := b.cheat_flags.getD 0
    let summary := String.intercalate ", " (cheatSummaryV61 flags)
    let row : WalkRowV61 :=
      { device_id := deviceId
        ended_at := now
        duration_seconds := b.duration_seconds
        distance_meters := b.distance_meters
        stop_count := b.stop_count
        grade := grade
        grade_score := score
        verification_status := jsOrStr b.verification_status "pending"
        quality_score := score
        carried_seconds := jsOrQ b.carried_seconds 0
        carried_percent := carriedPercent
        vehicle_seconds := jsOrQ b.vehicle_seconds 0
        vehicle_detected := flags &&& 2 ≠ 0
        actual_walk_seconds := jsOrQ b.actual_walk_seconds 0
        actual_walk_percent := actualWalkPercent
        cheat_flags := flags
        cheat_summary := if summary = "" then none else some summary }
    ({ code := 200, grade := some grade }, { s with walk_sessions := s.walk_sessions ++ [row] })

/-! Projection lemmas for the V6.1 write sequence. -/

theorem telemetryV61Writes_device_status (now : Nat) (d : String) (p : PayloadV61) (s : StoreV61) :
    (telemetryV61Writes now d p s).device_status
      = upsertStatusV61 (statusRowV61 now d p) s.device_status := by
  unfold telemetryV61Writes
  split_ifs <;> rfl

theorem telemetryV61Writes_locations (now : Nat) (d : String) (p : PayloadV61) (s : StoreV61) :
    (telemetryV61Writes now d p s).locations
      = if locCondV61 p then s.locations ++ [locationRowV61 d p] else s.locations := by
  unfold telemetryV61Writes
  split_ifs <;> rfl

theorem telemetryV61Writes_anomaly_log (now : Nat) (d : String) (p : PayloadV61) (s : StoreV61) :
    (telemetryV61Writes now d p s).anomaly_log
      = if p.anomaly_detected && optStrTruthy p.anomaly_type then
          s.anomaly_log ++ [anomalyRowV61 d p]
        else s.anomaly_log := by
  unfold telemetryV61Writes
  split_ifs <;> rfl

/-! ## Claim theorems -/

/-- C9: for every payload and configured key, the checksum computed by the
signature verifier — in both the V6.0 (two-loop) and V6.1 (single-loop,
signed-masked) variants — equals the djb2 recurrence `hash₀ = 5381;
hashᵢ = ((hashᵢ₋₁ << 5) + hashᵢ₋₁ + byteᵢ) mod 2³²` applied
character-by-character over the canonical message bytes followed by the key
bytes; being a pure function of those bytes, the verifier is deterministic. -/
theorem C9_checksum_djb2 :
    (∀ msg key : List Nat, checksumV60 msg key = (djb2Spec (msg ++ key) : Int))
    ∧ (∀ msg key : List Nat, checksumV61 msg key = (djb2Spec (msg ++ key) : Int)) :=
  ⟨checksumV60_eq_djb2Spec, checksumV61_eq_djb2Spec⟩

/-- C5: the V6.0 walk-end penalty score equals
`clamp(100 − 5·stopCount − 20·[duration<900] − 15·[distance<500], 0, 100)`;
duration 800 s, distance 600 m, 2 stops yields 70, and 30 stops on an
otherwise long-enough walk clamps to 0 rather than going negative. -/
theorem C5_penalty_policy :
    (∀ duration distance stops : ℚ,
        gradeScoreCalc duration distance stops = scoreSpec duration distance stops)
    ∧ gradeScoreCalc 800 600 2 = 70
    ∧ gradeScoreCalc 1000 600 30 = 0 := by
  refine ⟨?_, by norm_num [gradeScoreCalc], by norm_num [gradeScoreCalc]⟩
  intro duration distance stops
  unfold gradeScoreCalc scoreSpec
  split_ifs <;> ring_nf

/-- C6: both variants derive the grade letter by non-strict descending
thresholds — ≥90 → A, 70 ≤ s < 90 → B, 50 ≤ s < 70 → C, < 50 → F — and the
thresholds are boundary-exact: 95→A, 70→B, 50→C, 49→F. -/
theorem C6_grade_thresholds :
    (∀ s : ℚ,
        (90 ≤ s → gradeFromScore s = "A" ∧ gradeChain s = "A")
      ∧ (70 ≤ s → s < 90 → gradeFromScore s = "B" ∧ gradeChain s = "B")
      ∧ (50 ≤ s → s < 70 → gradeFromScore s = "C" ∧ gradeChain s = "C")
      ∧ (s < 50 → gradeFromScore s = "F" ∧ gradeChain s = "F"))
    ∧ gradeFromScore 95 = "A" ∧ gradeFromScore 70 = "B"
    ∧ gradeFromScore 50 = "C" ∧ gradeFromScore 49 = "F"
    ∧ gradeChain 95 = "A" ∧ gradeChain 70 = "B"
    ∧ gradeChain 50 = "C" ∧ gradeChain 49 = "F" := by
  refine ⟨?_, by decide, by decide, by decide, by decide, by decide, by decide, by decide, by decide⟩
  intro s
  refine ⟨?_, ?_, ?_, ?_⟩ <;> intros <;> unfold gradeFromScore gradeChain <;>
    split_ifs <;> first | exact ⟨rfl, rfl⟩ | (exfalso; linarith)

/-- C6 witness: the interval characterization applied at score 70. -/
theorem C6_grade_thresholds_witness :
    (70 : ℚ) ≤ 70 ∧ (70 : ℚ) < 90
    ∧ (gradeFromScore 70 = "B" ∧ gradeChain 70 = "B") :=
  ⟨by norm_num, by norm_num, (C6_grade_thresholds.1 70).2.1 (by norm_num) (by norm_num)⟩

/-- A payload counter fed through `|| 0` is itself. -/
theorem jsOrQ_zero (q : ℚ) : jsOrQ (some q) 0 = q := by
  show (if q = 0 then (0 : ℚ) else q) = q
  split_ifs with h
  · exact h.symm
  · rfl

/-- C7 counterexample: the claim's formula `100 × c / max(1, total)` fails on
the code for a negative total duration — `duration_seconds || 1` only defaults
an absent or zero duration, so −1 s divides as −1, not as `max(1, −1) = 1`:
the code yields −3000 where the claim demands 3000. -/
theorem C7_counterexample :
    percentCalc (some 30) (totalSecondsCalc (some (-1))) ≠ 100 * 30 / max 1 (-1 : ℚ) := by
  norm_num [percentCalc, totalSecondsCalc, jsOrQ, max_def]

/-- C7 amended: the code computes the percentages against
`duration_seconds || 1` (JS falsy default), which agrees with the claimed
`max(1, totalDurationSeconds)` exactly when the duration is zero or at least
one second — in particular for every whole-second nonnegative duration — and a
zero total duration with 30 carried seconds indeed yields 3000. -/
theorem C7_percent_amended (c t : ℚ) (h : t = 0 ∨ 1 ≤ t) :
    percentCalc (some c) (totalSecondsCalc (some t)) = 100 * c / max 1 t
    ∧ percentCalc (some 30) (totalSecondsCalc (some 0)) = 3000 := by
  constructor
  · unfold percentCalc totalSecondsCalc
    rw [jsOrQ_zero]
    show c / (if t = 0 then (1 : ℚ) else t) * 100 = 100 * c / max 1 t
    rcases h with h | h
    · subst h
      rw [if_pos rfl, max_eq_left (by norm_num : (0 : ℚ) ≤ 1)]
      ring
    · have ht : t ≠ 0 := by intro h0; rw [h0] at h; norm_num at h
      rw [if_neg ht, max_eq_right h]
      ring
  · norm_num [percentCalc, totalSecondsCalc, jsOrQ]

/-- C7 witness: the amended statement applied at total 0, carried 30. -/
theorem C7_percent_witness :
    ((0 : ℚ) = 0 ∨ 1 ≤ (0 : ℚ))
    ∧ (percentCalc (some 30) (totalSecondsCalc (some 0)) = 100 * 30 / max 1 (0 : ℚ)
       ∧ percentCalc (some 30) (totalSecondsCalc (some 0)) = 3000) :=
  ⟨Or.inl rfl, C7_percent_amended 30 0 (Or.inl rfl)⟩

/-- C4: for every accepted telemetry report (device id and signature checks
passed), the V6.0 handler answers 200 `{status: ok}` under *any* combination of
secondary-write faults; a failing location insert neither changes the
DeviceStatus outcome nor is surfaced; and with a healthy status write the
upsert is applied. -/
theorem C4_partial_failure_ok (hmacKey : Option String) (f : FaultsV60) (now : Nat)
    (p : PayloadV60) (s : StoreV60)
    (hd : optStrTruthy p.device_id = true)
    (hv : verifyHMACV60 hmacKey p = true) :
    (telemetryV60 hmacKey f now p s).1 = 200
    ∧ (telemetryV60 hmacKey { f with locationFail := true } now p s).2.device_status
        = (telemetryV60 hmacKey { f with locationFail := false } now p s).2.device_status
    ∧ (f.statusFail = false →
        (telemetryV60 hmacKey f now p s).2.device_status
          = upsertStatusV60 (statusRowV60 now p) s.device_status) := by
  refine ⟨telemetryV60_accepted_fst hmacKey f now p s hd hv, ?_, ?_⟩
  · rw [telemetryV60_device_status hmacKey _ now p s hd hv,
        telemetryV60_device_status hmacKey _ now p s hd hv]
  · intro hs
    rw [telemetryV60_device_status hmacKey f now p s hd hv, hs]
    rfl

def c4Payload : PayloadV60 := { device_id := some "dog1" }

/-- C4 witness: a concrete accepted report with the location insert failing. -/
theorem C4_partial_failure_witness :
    (optStrTruthy c4Payload.device_id = true
      ∧ verifyHMACV60 none c4Payload = true)
    ∧ ((telemetryV60 none { locationFail := true } 0 c4Payload {}).1 = 200
       ∧ (telemetryV60 none { ({ locationFail := true } : FaultsV60) with locationFail := true } 0 c4Payload {}).2.device_status
           = (telemetryV60 none { ({ locationFail := true } : FaultsV60) with locationFail := false } 0 c4Payload {}).2.device_status
       ∧ (({ locationFail := true } : FaultsV60).statusFail = false →
           (telemetryV60 none { locationFail := true } 0 c4Payload {}).2.device_status
             = upsertStatusV60 (statusRowV60 0 c4Payload) ({} : StoreV60).device_status)) := by
  refine ⟨⟨by decide, by decide⟩, ?_⟩
  exact C4_partial_failure_ok none { locationFail := true } 0 c4Payload {} (by decide) (by decide)

/-- C10: a second walk-end on an already-finalized V6.0 session (`ended_at`
set) is accepted — 200 with a freshly computed grade and score — and the
session row is overwritten with new `ended_at`, duration, distance, stop
count, grade and score taken from the current DeviceStatus counters; it is
neither rejected nor a no-op. -/
theorem C10_walk_end_refinalize (deviceId : String) (walk_id : Nat) (now : Nat)
    (s : StoreV60) (w : WalkRowV60)
    (hw : s.walk_sessions.find? (fun r => r.id == walk_id) = some w)
    (hended : w.ended_at.isSome = true) :
    (walkEndV60 deviceId walk_id now s).1.code = 200
    ∧ (walkEndV60 deviceId walk_id now s).1.grade
        = some (gradeChain (gradeScoreCalc
            (statusDuration (s.device_status.find? (fun r => r.device_id == deviceId)))
            (statusDistance (s.device_status.find? (fun r => r.device_id == deviceId)))
            (statusStops (s.device_status.find? (fun r => r.device_id == deviceId)))))
    ∧ (walkEndV60 deviceId walk_id now s).2.walk_sessions
        = s.walk_sessions.map
            (finalizeWalkRowV60 (s.device_status.find? (fun r => r.device_id == deviceId)) now walk_id)
    ∧ (finalizeWalkRowV60 (s.device_status.find? (fun r => r.device_id == deviceId)) now walk_id w).ended_at
        = some now := by
  have hp : (w.id == walk_id) = true := by
    have h := List.find?_some hw
    simpa using h
  refine ⟨?_, ?_, ?_, ?_⟩
  · simp only [walkEndV60, hw]
  · simp only [walkEndV60, hw]
  · simp only [walkEndV60, hw]
  · unfold finalizeWalkRowV60
    rw [if_pos hp]

def c10Walk : WalkRowV60 := { id := 3, device_id := "dog1", ended_at := some 5 }

def c10Store : StoreV60 := { walk_sessions := [c10Walk] }

/-- C10 witness: a store holding one already-finalized session. -/
theorem C10_walk_end_refinalize_witness :
    (c10Store.walk_sessions.find? (fun r => r.id == 3) = some c10Walk
      ∧ c10Walk.ended_at.isSome = true)
    ∧ ((walkEndV60 "dog1" 3 7 c10Store).1.code = 200
       ∧ (walkEndV60 "dog1" 3 7 c10Store).1.grade
           = some (gradeChain (gradeScoreCalc
               (statusDuration (c10Store.device_status.find? (fun r => r.device_id == "dog1")))
               (statusDistance (c10Store.device_status.find? (fun r => r.device_id == "dog1")))
               (statusStops (c10Store.device_status.find? (fun r => r.device_id == "dog1")))))
       ∧ (walkEndV60 "dog1" 3 7 c10Store).2.walk_sessions
           = c10Store.walk_sessions.map
               (finalizeWalkRowV60 (c10Store.device_status.find? (fun r => r.device_id == "dog1")) 7 3)
       ∧ (finalizeWalkRowV60 (c10Store.device_status.find? (fun r => r.device_id == "dog1")) 7 3 c10Walk).ended_at
           = some 7) := by
  refine ⟨⟨by decide, by decide⟩, ?_⟩
  exact C10_walk_end_refinalize "dog1" 3 7 c10Store c10Walk (by decide) (by decide)

def c1Payload : PayloadV61 := { device_id := some "dog1" }

/-- C1 counterexample: with signing key `"k"` configured and no signature field
in the payload, the V6.1 telemetry handler answers 200 and persists the
payload (a DeviceStatus row appears) — not a 401 rejection as claimed. -/
theorem C1_counterexample :
    (telemetryV61 "k" true 0 c1Payload {}).1 = 200
    ∧ (telemetryV61 "k" true 0 c1Payload {}).2.device_status ≠ [] :=
  ⟨by decide, by decide⟩

/-- C1 amended: in the V6.0 gateway a configured signing key together with a
missing signature makes `verifyHMAC` fail and the telemetry request is
rejected 401 with the store untouched; the V6.1 gateway runs verification only
when a signature field is present, so the same request is accepted 200 and its
DeviceStatus upsert is applied. -/
theorem C1_missing_signature_amended :
    (∀ (k : String) (f : FaultsV60) (now : Nat) (p : PayloadV60) (s : StoreV60),
        k ≠ "" → optStrTruthy p.device_id = true → p.signature = none →
        verifyHMACV60 (some k) p = false ∧ telemetryV60 (some k) f now p s = (401, s))
    ∧ (∀ (k : String) (now : Nat) (p : PayloadV61) (s : StoreV61),
        k ≠ "" → optStrTruthy p.device_id = true → p.signature = none →
        (telemetryV61 k true now p s).1 = 200
        ∧ (telemetryV61 k true now p s).2.device_status
            = upsertStatusV61 (statusRowV61 now (p.device_id.getD "") p) s.device_status) := by
  constructor
  · intro k f now p s hk hd hsig
    have hv : verifyHMACV60 (some k) p = false := by
      simp [verifyHMACV60, optStrTruthy, optNatTruthy, hk, hsig]
    refine ⟨hv, ?_⟩
    unfold telemetryV60
    rw [if_neg (by simp [hd]), if_pos (by simp [hv])]
  · intro k now p s hk hd hsig
    have h401 : ¬ ((k ≠ "" ∧ optStrTruthy p.signature = true)
        ∧ verifyHMACV61 k p p.signature = false) := by
      rintro ⟨⟨_, hst⟩, _⟩
      rw [hsig] at hst
      simp [optStrTruthy] at hst
    unfold telemetryV61
    rw [if_neg (by simp [hd]), if_neg h401, if_neg (by simp)]
    exact ⟨rfl, telemetryV61Writes_device_status now (p.device_id.getD "") p s⟩

def c1PayloadV60 : PayloadV60 := { device_id := some "dog1" }

/-- C1 witness: concrete unsigned payloads against both gateways with key "k". -/
theorem C1_missing_signature_witness :
    (("k" : String) ≠ ""
      ∧ optStrTruthy c1PayloadV60.device_id = true ∧ c1PayloadV60.signature = none
      ∧ optStrTruthy c1Payload.device_id = true ∧ c1Payload.signature = none)
    ∧ (verifyHMACV60 (some "k") c1PayloadV60 = false
       ∧ telemetryV60 (some "k") noFaults 0 c1PayloadV60 {} = (401, ({} : StoreV60)))
    ∧ ((telemetryV61 "k" true 0 c1Payload {}).1 = 200
       ∧ (telemetryV61 "k" true 0 c1Payload {}).2.device_status
           = upsertStatusV61 (statusRowV61 0 (c1Payload.device_id.getD "") c1Payload)
               ({} : StoreV61).device_status) := by
  refine ⟨⟨by decide, by decide, by decide, by decide, by decide⟩, ?_, ?_⟩
  · exact C1_missing_signature_amended.1 "k" noFaults 0 c1PayloadV60 {}
      (by decide) (by decide) (by decide)
  · exact C1_missing_signature_amended.2 "k" 0 c1Payload {}
      (by decide) (by decide) (by decide)

def c3Body : WalkEndBodyV61 := { started_at := some "2026-01-01T00:00:00Z" }

/-- C3 counterexample: the V6.1 walk-end endpoint never looks up a walk id —
against a store containing no WalkSession at all (so any walk id the request
could carry names nothing) it answers 200 and inserts a fresh row, instead of
returning 404 with no writes. -/
theorem C3_counterexample :
    (walkEndV61 "dog1" 0 c3Body {}).1.code = 200
    ∧ (walkEndV61 "dog1" 0 c3Body {}).2.walk_sessions ≠ [] :=
  ⟨by decide, by decide⟩

/-- C3 amended: in the V6.0 gateway a walk-end naming an unknown walk id
returns 404 and leaves the store exactly as it was; the V6.1 gateway's
walk-end consults no walk id and always inserts a brand-new WalkSession,
answering 200. -/
theorem C3_walk_end_not_found_amended :
    (∀ (deviceId : String) (walk_id now : Nat) (s : StoreV60),
        s.walk_sessions.find? (fun r => r.id == walk_id) = none →
        walkEndV60 deviceId walk_id now s = ({ code := 404 }, s))
    ∧ (∀ (deviceId : String) (now : Nat) (b : WalkEndBodyV61) (s : StoreV61),
        optStrTruthy b.started_at = true →
        (walkEndV61 deviceId now b s).1.code = 200
        ∧ (walkEndV61 deviceId now b s).2.walk_sessions.length
            = s.walk_sessions.length + 1) := by
  constructor
  · intro deviceId walk_id now s hw
    simp only [walkEndV60, hw]
  · intro deviceId now b s hs
    have hguard : ¬ (¬ optStrTruthy b.started_at = true ∧ b.duration_seconds = none) := by
      rintro ⟨h1, _⟩
      exact h1 hs
    unfold walkEndV61
    rw [if_neg hguard]
    exact ⟨rfl, by simp⟩

/-- C3 witness: an empty V6.0 store (unknown id 9) and a concrete V6.1 body. -/
theorem C3_walk_end_not_found_witness :
    (({} : StoreV60).walk_sessions.find? (fun r => r.id == 9) = none
      ∧ optStrTruthy c3Body.started_at = true)
    ∧ walkEndV60 "dog1" 9 0 {} = ({ code := 404 }, ({} : StoreV60))
    ∧ ((walkEndV61 "dog1" 0 c3Body {}).1.code = 200
       ∧ (walkEndV61 "dog1" 0 c3Body {}).2.walk_sessions.length
           = ({} : StoreV61).walk_sessions.length + 1) := by
  refine ⟨⟨by decide, by decide⟩, ?_, ?_⟩
  · exact C3_walk_end_not_found_amended.1 "dog1" 9 0 {} (by decide)
  · exact C3_walk_end_not_found_amended.2 "dog1" 0 c3Body {} (by decide)

/-- Modelled from the claim's words (C8): a "geometrically valid fix" is a
non-null latitude and non-null longitude together with a true valid-fix flag. -/
def claimValidFixV61 (p : PayloadV61) : Prop :=
  p.gps_valid = true ∧ p.latitude ≠ none ∧ p.longitude ≠ none

def c8Payload : PayloadV61 :=
  { device_id := some "dog1", gps_valid := true, latitude := some 0, longitude := some 10 }

/-- C8 counterexample: a report with a true valid-fix flag and *non-null*
coordinates latitude 0, longitude 10 satisfies the claim's condition, yet the
accepted request writes no LocationRecord — JS truthiness treats the zero
latitude as absent. -/
theorem C8_counterexample :
    claimValidFixV61 c8Payload
    ∧ (telemetryV61 "" true 3 c8Payload {}).1 = 200
    ∧ (telemetryV61 "" true 3 c8Payload {}).2.locations = [] := by
  refine ⟨⟨rfl, by decide, by decide⟩, by decide, by decide⟩

/-- C8 amended: a LocationRecord is inserted exactly when the valid-fix flag
and the latitude and the longitude are all *truthy* — i.e. present and
nonzero, not merely non-null — in both gateway variants (for accepted
reports, with the location write healthy in V6.0). -/
theorem C8_location_insert_amended :
    (∀ (hmacKey : Option String) (f : FaultsV60) (now : Nat) (p : PayloadV60) (s : StoreV60),
        optStrTruthy p.device_id = true → verifyHMACV60 hmacKey p = true →
        f.locationFail = false →
        (telemetryV60 hmacKey f now p s).2.locations
          = (if optBoolTruthy (p.gps.map (·.valid))
                && optQTruthy (p.gps.bind (·.lat)) && optQTruthy (p.gps.bind (·.lon)) then
              s.locations ++ [locationRowV60 (p.device_id.getD "") p]
            else s.locations))
    ∧ (∀ (k : String) (storeConfigured : Bool) (now : Nat) (p : PayloadV61) (s : StoreV61),
        (telemetryV61 k storeConfigured now p s).1 = 200 →
        (telemetryV61 k storeConfigured now p s).2.locations
          = (if p.gps_valid && optQTruthy p.latitude && optQTruthy p.longitude then
              s.locations ++ [locationRowV61 (p.device_id.getD "") p]
            else s.locations)) := by
  constructor
  · intro hmacKey f now p s hd hv hl
    rw [telemetryV60_locations hmacKey f now p s hd hv, hl]
    simp [locCondV60]
  · intro k sc now p s hacc
    by_cases h1 : optStrTruthy p.device_id = true
    · by_cases h2 : (k ≠ "" ∧ optStrTruthy p.signature = true)
          ∧ verifyHMACV61 k p p.signature = false
      · exfalso
        unfold telemetryV61 at hacc
        rw [if_neg (by simp [h1]), if_pos h2] at hacc
        simp at hacc
      · by_cases h3 : sc = true
        · unfold telemetryV61
          rw [if_neg (by simp [h1]), if_neg h2, if_neg (by simp [h3]),
              telemetryV61Writes_locations]
          rfl
        · exfalso
          unfold telemetryV61 at hacc
          rw [if_neg (by simp [h1]), if_neg h2, if_pos (by simp [h3])] at hacc
          simp at hacc
    · exfalso
      unfold telemetryV61 at hacc
      rw [if_pos (by simp [h1])] at hacc
      simp at hacc

def c8PayloadV60 : PayloadV60 :=
  { device_id := some "dog1", gps := some { valid := true, lat := some 1, lon := some 2 } }

/-- C8 witness: a valid nonzero fix against both gateways. -/
theorem C8_location_insert_witness :
    (optStrTruthy c8PayloadV60.device_id = true
      ∧ verifyHMACV60 none c8PayloadV60 = true
      ∧ noFaults.locationFail = false
      ∧ (telemetryV61 "" true 0 c8Payload {}).1 = 200)
    ∧ (telemetryV60 none noFaults 0 c8PayloadV60 {}).2.locations
        = (if optBoolTruthy (c8PayloadV60.gps.map (·.valid))
              && optQTruthy (c8PayloadV60.gps.bind (·.lat))
              && optQTruthy (c8PayloadV60.gps.bind (·.lon)) then
            ({} : StoreV60).locations ++ [locationRowV60 (c8PayloadV60.device_id.getD "") c8PayloadV60]
          else ({} : StoreV60).locations)
    ∧ (telemetryV61 "" true 0 c8Payload {}).2.locations
        = (if c8Payload.gps_valid && optQTruthy c8Payload.latitude && optQTruthy c8Payload.longitude then
            ({} : StoreV61).locations ++ [locationRowV61 (c8Payload.device_id.getD "") c8Payload]
          else ({} : StoreV61).locations) := by
  refine ⟨⟨by decide, by decide, by decide, by decide⟩, ?_, ?_⟩
  · exact C8_location_insert_amended.1 none noFaults 0 c8PayloadV60 {}
      (by decide) (by decide) (by decide)
  · exact C8_location_insert_amended.2 "" true 0 c8Payload {} (by decide)

/-- The AnomalyLogEntry rows for a given device and anomaly type. -/
def anomalyCountV60 (s : StoreV60) (d ty : String) : Nat :=
  (s.anomaly_log.filter (fun r => r.device_id == d && r.anomaly_type == some ty)).length

def c2Payload : PayloadV61 :=
  { device_id := some "dog1", anomaly_detected := true, anomaly_type := some "limp" }

/-- C2 counterexample: the V6.1 gateway has no anomaly dedup — two reports for
the same device and type processed the same day (both at time 0) leave *two*
AnomalyLogEntry rows, not one. -/
theorem C2_counterexample :
    (telemetryV61 "" true 0 c2Payload
        ((telemetryV61 "" true 0 c2Payload {}).2)).2.anomaly_log.length = 2 := by
  decide

/-- C2 amended: the V6.0 gateway deduplicates — starting from a store with no
entry for the device and type on day `t`, two reports on day `t` insert
exactly one AnomalyLogEntry and a third report on day `t+1` inserts a second —
whereas the V6.1 gateway inserts an entry on *every* accepted report flagging
an anomaly with a truthy type, with no dedup. -/
theorem C2_anomaly_dedup_amended
    (d ty : String) (t : Nat) (p1 p2 p3 : PayloadV60) (s : StoreV60)
    (hl1 hl2 hl3 : HealthV60)
    (hdne : d ≠ "")
    (hd1 : p1.device_id = some d) (hd2 : p2.device_id = some d) (hd3 : p3.device_id = some d)
    (hh1 : p1.health = some hl1) (ha1 : hl1.anomaly = true) (ht1 : hl1.anomaly_type = some ty)
    (hh2 : p2.health = some hl2) (ha2 : hl2.anomaly = true) (ht2 : hl2.anomaly_type = some ty)
    (hh3 : p3.health = some hl3) (ha3 : hl3.anomaly = true) (ht3 : hl3.anomaly_type = some ty)
    (hclean : s.anomaly_log.filter (anomalyMatchV60 d (some ty) t) = []) :
    anomalyCountV60 (telemetryV60 none noFaults t p2
        (telemetryV60 none noFaults t p1 s).2).2 d ty
      = anomalyCountV60 s d ty + 1
    ∧ anomalyCountV60 (telemetryV60 none noFaults (t+1) p3
        (telemetryV60 none noFaults t p2 (telemetryV60 none noFaults t p1 s).2).2).2 d ty
      = anomalyCountV60 s d ty + 2
    ∧ (∀ (now : Nat) (q : PayloadV61) (s2 : StoreV61),
        optStrTruthy q.device_id = true → q.anomaly_detected = true →
        optStrTruthy q.anomaly_type = true →
        (telemetryV61 "" true now q s2).2.anomaly_log
          = s2.anomaly_log ++ [anomalyRowV61 (q.device_id.getD "") q]) := by
  have hvr : ∀ p : PayloadV60, verifyHMACV60 none p = true := by
    intro p
    simp [verifyHMACV60, optStrTruthy]
  have hdt : optStrTruthy (some d) = true := by simp [optStrTruthy, hdne]
  have hdt1 : optStrTruthy p1.device_id = true := by rw [hd1]; exact hdt
  have hdt2 : optStrTruthy p2.device_id = true := by rw [hd2]; exact hdt
  have hdt3 : optStrTruthy p3.device_id = true := by rw [hd3]; exact hdt
  have hrow1 : anomalyMatchV60 d (some ty) t
      { device_id := d, anomaly_type := some ty, deviation_percent := hl1.deviation, day := t }
        = true := by
    simp [anomalyMatchV60, optEqSql]
  have hrow1' : anomalyMatchV60 d (some ty) (t + 1)
      { device_id := d, anomaly_type := some ty, deviation_percent := hl1.deviation, day := t }
        = false := by
    simp [anomalyMatchV60, optEqSql]
  have hclean3 : s.anomaly_log.filter (anomalyMatchV60 d (some ty) (t + 1)) = [] := by
    rw [List.filter_eq_nil_iff] at hclean ⊢
    intro r hr hm
    refine hclean r hr ?_
    revert hm
    simp only [anomalyMatchV60, Bool.and_eq_true, decide_eq_true_eq]
    rintro ⟨⟨e1, e2⟩, e3⟩
    exact ⟨⟨e1, e2⟩, by omega⟩
  have hlog1 : (telemetryV60 none noFaults t p1 s).2.anomaly_log
      = s.anomaly_log
        ++ [{ device_id := d, anomaly_type := some ty,
              deviation_percent := hl1.deviation, day := t }] := by
    rw [telemetryV60_anomaly_log none noFaults t p1 s hdt1 (hvr p1)]
    simp [anomalySectionV60, hd1, hh1, ha1, ht1, hclean, noFaults]
  have hlog2 : (telemetryV60 none noFaults t p2
      (telemetryV60 none noFaults t p1 s).2).2.anomaly_log
        = s.anomaly_log
          ++ [{ device_id := d, anomaly_type := some ty,
                deviation_percent := hl1.deviation, day := t }] := by
    rw [telemetryV60_anomaly_log none noFaults t p2 _ hdt2 (hvr p2), hlog1]
    simp [anomalySectionV60, hd2, hh2, ha2, ht2, noFaults, List.filter_append, hclean, hrow1]
  have hlog3 : (telemetryV60 none noFaults (t+1) p3
      (telemetryV60 none noFaults t p2 (telemetryV60 none noFaults t p1 s).2).2).2.anomaly_log
        = s.anomaly_log
          ++ [{ device_id := d, anomaly_type := some ty,
                deviation_percent := hl1.deviation, day := t },
              { device_id := d, anomaly_type := some ty,
                deviation_percent := hl3.deviation, day := t + 1 }] := by
    rw [telemetryV60_anomaly_log none noFaults (t+1) p3 _ hdt3 (hvr p3), hlog2]
    simp [anomalySectionV60, hd3, hh3, ha3, ht3, noFaults, List.filter_append, hclean3, hrow1']
  refine ⟨?_, ?_, ?_⟩
  · unfold anomalyCountV60
    rw [hlog2]
    simp [List.filter_append]
  · unfold anomalyCountV60
    rw [hlog3]
    simp [List.filter_append]
  · intro now q s2 hdq haq htq
    have h401 : ¬ ((("" : String) ≠ "" ∧ optStrTruthy q.signature = true)
        ∧ verifyHMACV61 "" q q.signature = false) := by
      rintro ⟨⟨h, _⟩, _⟩
      exact h rfl
    unfold telemetryV61
    rw [if_neg (by simp [hdq]), if_neg h401, if_neg (by simp)]
    rw [telemetryV61Writes_anomaly_log]
    simp [haq, htq]

def c2Health : HealthV60 := { anomaly := true, anomaly_type := some "limp" }

def c2PayloadV60 : PayloadV60 := { device_id := some "dog1", health := some c2Health }

/-- C2 witness: device "dog1", anomaly type "limp", two reports on day 0 and a
third on day 1 against an empty store, plus the V6.1 unconditional insert. -/
theorem C2_anomaly_dedup_witness :
    (("dog1" : String) ≠ ""
      ∧ c2PayloadV60.device_id = some "dog1" ∧ c2PayloadV60.health = some c2Health
      ∧ c2Health.anomaly = true ∧ c2Health.anomaly_type = some "limp"
      ∧ ({} : StoreV60).anomaly_log.filter (anomalyMatchV60 "dog1" (some "limp") 0) = [])
    ∧ anomalyCountV60 (telemetryV60 none noFaults 0 c2PayloadV60
          (telemetryV60 none noFaults 0 c2PayloadV60 {}).2).2 "dog1" "limp"
        = anomalyCountV60 {} "dog1" "limp" + 1
    ∧ anomalyCountV60 (telemetryV60 none noFaults 1 c2PayloadV60
          (telemetryV60 none noFaults 0 c2PayloadV60
            (telemetryV60 none noFaults 0 c2PayloadV60 {}).2).2).2 "dog1" "limp"
        = anomalyCountV60 {} "dog1" "limp" + 2
    ∧ (telemetryV61 "" true 0 c2Payload {}).2.anomaly_log
        = ({} : StoreV61).anomaly_log
          ++ [anomalyRowV61 (c2Payload.device_id.getD "") c2Payload] := by
  have h := C2_anomaly_dedup_amended "dog1" "limp" 0 c2PayloadV60 c2PayloadV60 c2PayloadV60 {}
      c2Health c2Health c2Health (by decide) (by decide) (by decide) (by decide)
      (by decide) (by decide) (by decide) (by decide) (by decide) (by decide)
      (by decide) (by decide) (by decide) (by decide)
  exact ⟨⟨by decide, by decide, by decide, by decide, by decide, by decide⟩,
    h.1, h.2.1, h.2.2 0 c2Payload {} (by decide) (by decide) (by decide)⟩
